import Mathlib

/-!
Verification of the relay-server repository (src/protocol.py, src/server.py).

The Python sources are shallowly embedded below:

* the wire-message dataclasses of `protocol.py` become the inductive `Msg`,
  and `to_json` / `from_json` are modelled at the JSON-value level
  (`json.dumps` / `json.loads` are the standard-library codec, inverse to
  each other on these values; the program's own content is the mapping
  between messages and decoded JSON objects, i.e. ordered key/value lists);
* the mutable fields of `RelayServer` become the structure `RelayState`;
* each `async` method becomes a pure function from the state and the
  external inputs it consumes (tmux listings, captured pane text, the
  current clock reading) to the new state plus a list of `Effect`s
  (websocket broadcasts / direct sends and tmux subprocess calls), in
  source order;
* wall-clock times (Python floats, seconds) are modelled as integer
  milliseconds, which represents the source's constants exactly:
  `0.5 s = 500`, `5.0 s = 5000`, `0.15 s = 150`;
* Python truthiness of an `Optional[str]` (`None` and `""` are falsy)
  is `truthyOpt`.
-/

set_option linter.unusedVariables false

namespace Relay

/-- Wire messages: the six dataclasses of protocol.py
(`Output`, `Status`, `Sessions`, `Pong`, `Input`, `Command`),
one constructor per `type` tag, with exactly the dataclass's fields. -/
inductive Msg where
  | Output (content : String)
  | Status (connected : Bool) (session : Option String) (is_busy : Bool)
  | Sessions (sessions : List String) (active : Option String)
  | Pong
  | Input (content : String) (key : Option String)
  | Command (action : String) (session : Option String) (command : Option String)
deriving DecidableEq, Repr

/-- Observable side effects of the engine: a broadcast to every connected
client (`_broadcast`), a direct send to the requesting client (`ws.send`),
and the four tmux subprocess commands the server issues. -/
inductive Effect where
  | broadcast (m : Msg)
  | sendTo (m : Msg)
  | tmuxNewSession (name : String) (command : String)
  | tmuxKillSession (name : String)
  | tmuxSendText (target : String) (text : String)
  | tmuxSendKey (target : String) (key : String)
deriving DecidableEq, Repr

/-- JSON values, as far as the protocol needs them (strings, booleans,
null, arrays). An object is an ordered list of key/value pairs, matching
the insertion-ordered Python dict produced by `dataclasses.asdict`. -/
inductive JVal where
  | null
  | bool (b : Bool)
  | str (s : String)
  | arr (a : List JVal)
deriving Repr

/-- `None`-able string fields serialize to `null` or a JSON string. -/
def optStrJson : Option String → JVal
  | none => JVal.null
  | some s => JVal.str s

/-- protocol.to_json: `json.dumps(asdict(msg))`, modelled at the decoded
JSON-object level; keys appear in dataclass field order, `type` first. -/
def to_json : Msg → List (String × JVal)
  | Msg.Output content =>
      [("type", JVal.str "output"), ("content", JVal.str content)]
  | Msg.Status connected session is_busy =>
      [("type", JVal.str "status"), ("connected", JVal.bool connected),
       ("session", optStrJson session), ("is_busy", JVal.bool is_busy)]
  | Msg.Sessions sessions active =>
      [("type", JVal.str "sessions"), ("sessions", JVal.arr (sessions.map JVal.str)),
       ("active", optStrJson active)]
  | Msg.Pong => [("type", JVal.str "pong")]
  | Msg.Input content key =>
      [("type", JVal.str "input"), ("content", JVal.str content),
       ("key", optStrJson key)]
  | Msg.Command action session command =>
      [("type", JVal.str "command"), ("action", JVal.str action),
       ("session", optStrJson session), ("command", optStrJson command)]

/-- `obj.get(k)` on a decoded JSON object. -/
def jGet (o : List (String × JVal)) (k : String) : Option JVal :=
  (o.find? (fun p => p.1 == k)).map (fun p => p.2)

/-- `cls(**obj)` raises `TypeError` on any unexpected keyword: every key
of the object must be a field of the selected dataclass. -/
def keysOk (o : List (String × JVal)) (allowed : List String) : Bool :=
  o.all (fun p => allowed.contains p.1)

/-- Read a string field, falling back to the dataclass default when the
key is absent. (Python dataclasses do not type-check field values; an
ill-typed field would build an ill-typed object there, which the typed
model reports as an error instead. That branch is unreachable from
encodings of `Msg` values.) -/
def getStrD (o : List (String × JVal)) (k d : String) : Except String String :=
  match jGet o k with
  | none => Except.ok d
  | some (JVal.str s) => Except.ok s
  | some _ => Except.error ("field is not a string: " ++ k)

/-- Read a boolean field with its dataclass default. -/
def getBoolD (o : List (String × JVal)) (k : String) (d : Bool) : Except String Bool :=
  match jGet o k with
  | none => Except.ok d
  | some (JVal.bool b) => Except.ok b
  | some _ => Except.error ("field is not a bool: " ++ k)

/-- Read an `Optional[str]` field with its dataclass default. -/
def getOptStr (o : List (String × JVal)) (k : String) (d : Option String) :
    Except String (Option String) :=
  match jGet o k with
  | none => Except.ok d
  | some JVal.null => Except.ok none
  | some (JVal.str s) => Except.ok (some s)
  | some _ => Except.error ("field is not a string or null: " ++ k)

/-- Decode a JSON array whose elements must all be strings. -/
def strList : List JVal → Except String (List String)
  | [] => Except.ok []
  | JVal.str s :: rest => (strList rest).map (fun l => s :: l)
  | _ :: _ => Except.error "array element is not a string"

/-- Read the `sessions` field: a missing key uses the default `None`, and
`Sessions.__post_init__` turns `None` into `[]`. -/
def getStrListD (o : List (String × JVal)) (k : String) : Except String (List String) :=
  match jGet o k with
  | none => Except.ok []
  | some JVal.null => Except.ok []
  | some (JVal.arr a) => strList a
  | some _ => Except.error ("field is not a list: " ++ k)

/-- protocol.from_json: dispatch on `obj.get("type")` through `type_map`,
then rebuild the dataclass with `cls(**obj)`; an unknown tag raises
`ValueError`. -/
def from_json (o : List (String × JVal)) : Except String Msg :=
  match jGet o "type" with
  | some (JVal.str "output") =>
      if keysOk o ["type", "content"] then do
        let content ← getStrD o "content" ""
        Except.ok (Msg.Output content)
      else Except.error "unexpected keyword argument"
  | some (JVal.str "status") =>
      if keysOk o ["type", "connected", "session", "is_busy"] then do
        let connected ← getBoolD o "connected" false
        let session ← getOptStr o "session" none
        let is_busy ← getBoolD o "is_busy" false
        Except.ok (Msg.Status connected session is_busy)
      else Except.error "unexpected keyword argument"
  | some (JVal.str "sessions") =>
      if keysOk o ["type", "sessions", "active"] then do
        let sessions ← getStrListD o "sessions"
        let active ← getOptStr o "active" none
        Except.ok (Msg.Sessions sessions active)
      else Except.error "unexpected keyword argument"
  | some (JVal.str "pong") =>
      if keysOk o ["type"] then Except.ok Msg.Pong
      else Except.error "unexpected keyword argument"
  | some (JVal.str "input") =>
      if keysOk o ["type", "content", "key"] then do
        let content ← getStrD o "content" ""
        let key ← getOptStr o "key" none
        Except.ok (Msg.Input content key)
      else Except.error "unexpected keyword argument"
  | some (JVal.str "command") =>
      if keysOk o ["type", "action", "session", "command"] then do
        let action ← getStrD o "action" ""
        let session ← getOptStr o "session" none
        let command ← getOptStr o "command" none
        Except.ok (Msg.Command action session command)
      else Except.error "unexpected keyword argument"
  | _ => Except.error "Unknown message type"

/-- Characters of the `[0-9;?]*` body of a CSI escape sequence. -/
def csiBody (c : Char) : Bool := c.isDigit || c = ';' || c = '?'

/-- Match the tail of the regex alternative `\x1b\[[0-9;?]*[a-zA-Z]`
after the `ESC [` prefix: greedily consume `[0-9;?]*`, then require one
ASCII letter; return the rest of the input on success. -/
def takeCsi : List Char → Option (List Char)
  | [] => none
  | c :: rest =>
      if csiBody c then takeCsi rest
      else if c.isAlpha then some rest else none

/-- Match the tail of the regex alternative `\x1b\][^\x07]*\x07` after
the `ESC ]` prefix: consume up to and including the next BEL. -/
def takeOsc : List Char → Option (List Char)
  | [] => none
  | c :: rest => if c = '\x07' then some rest else takeOsc rest

/-- One left-to-right pass of `ANSI_ESCAPE.sub("", text)` for the pattern
`\x1b\[[0-9;?]*[a-zA-Z]|\x1b\][^\x07]*\x07|\x07|\r` (alternatives tried
in order at each position; on no match the character is kept and the scan
moves one character right). The fuel argument only bounds the recursion;
every step consumes at least one character, so `fuel = length` never
runs out. -/
def stripCtlAux : Nat → List Char → List Char
  | 0, l => l
  | _, [] => []
  | n+1, c :: rest =>
    if c = '\x07' || c = '\r' then stripCtlAux n rest
    else if c = '\x1b' then
      match rest with
      | '[' :: r2 =>
        (match takeCsi r2 with
         | some r3 => stripCtlAux n r3
         | none => c :: stripCtlAux n rest)
      | ']' :: r2 =>
        (match takeOsc r2 with
         | some r3 => stripCtlAux n r3
         | none => c :: stripCtlAux n rest)
      | _ => c :: stripCtlAux n rest
    else c :: stripCtlAux n rest

/-- The box-drawing characters removed by `strip_ansi`. -/
def boxChars : List Char := "│┃┌┐└┘├┤┬┴┼═║╔╗╚╝╠╣╦╩╬─━╭╮╯╰".data

/-- server.strip_ansi: remove terminal control sequences, then filter
out box-drawing characters. -/
def strip_ansi (s : String) : String :=
  ⟨(stripCtlAux s.data.length s.data).filter (fun c => !boxChars.contains c)⟩

/-- Python `str.rstrip("\n")`. -/
def rstripNewline (s : String) : String :=
  ⟨(s.data.reverse.dropWhile (fun c => c = '\n')).reverse⟩

/-- ASCII case of Python `str.isspace` (the characters that occur in
captured terminal text). -/
def pyIsSpace (c : Char) : Bool :=
  c = ' ' || c = '\t' || c = '\n' || c = '\r' || c = '\x0b' || c = '\x0c'

/-- Python `str.strip()` (both ends, whitespace). -/
def pyStrip (s : String) : String :=
  ⟨((s.data.dropWhile pyIsSpace).reverse.dropWhile pyIsSpace).reverse⟩

/-- Python truthiness of an `Optional[str]`: `None` and `""` are falsy. -/
def truthyOpt : Option String → Bool
  | none => false
  | some s => s ≠ ""

/-- `self._debounce_time = 0.5` seconds, in milliseconds. -/
def debounce_time : Int := 500

/-- `self._max_silence = 5.0` seconds, in milliseconds. -/
def max_silence : Int := 5000

/-- The fixed `0.15` second lag in the busy-edge check, in milliseconds. -/
def busy_lag : Int := 150

/-- The mutable attachment state of `RelayServer.__init__`: the current
session, the running flag, whether a capture-loop task object exists
(`_capture_task is not None`; the engine holds at most one), the three
cached text fields, and the two timestamps. -/
structure RelayState where
  session : Option String
  running : Bool
  captureTask : Bool
  last_content : String
  last_clean : String
  last_emitted : String
  last_change_time : Int
  last_emit_time : Int
deriving DecidableEq, Repr

/-- The state set up by `RelayServer.__init__`. -/
def initState : RelayState :=
  { session := none, running := false, captureTask := false,
    last_content := "", last_clean := "", last_emitted := "",
    last_change_time := 0, last_emit_time := 0 }

/-- `ws.send` when a target websocket was passed, `_broadcast` otherwise. -/
def emit (direct : Bool) (m : Msg) : Effect :=
  if direct then Effect.sendTo m else Effect.broadcast m

/-- The `Status` message built by `_send_status`: `connected=True`,
the current session, and `is_busy` iff a session is attached and the
last detected change is less than the debounce interval old. -/
def statusMsg (s : RelayState) (now : Int) : Msg :=
  let is_busy := decide ((now - s.last_change_time) < debounce_time)
  Msg.Status true s.session (if truthyOpt s.session then is_busy else false)

/-- `_send_status(ws)`: no state change, one status message. -/
def send_status (s : RelayState) (now : Int) (direct : Bool) : List Effect :=
  [emit direct (statusMsg s now)]

/-- The state mutations of `_detach`: stop the loop, drop the (cancelled
and awaited) capture task, clear the session and all three cached text
fields. The two timestamps are not touched. -/
def detach_state (s : RelayState) : RelayState :=
  { s with running := false, captureTask := false, session := none,
           last_content := "", last_clean := "", last_emitted := "" }

/-- `_detach`: clear the attachment, then `_send_status()` (broadcast). -/
def detach (s : RelayState) (now : Int) : RelayState × List Effect :=
  (detach_state s, send_status (detach_state s) now false)

/-- `_send_sessions(ws)`: list sessions (the `listing` input); if a
session is attached but no longer listed, `_detach` first; then send a
`Sessions` message whose `active` is the (possibly just cleared)
current session. -/
def send_sessions (s : RelayState) (listing : List String) (now : Int) (direct : Bool) :
    RelayState × List Effect :=
  if truthyOpt s.session ∧ s.session.getD "" ∉ listing then
    ((detach s now).1,
     (detach s now).2 ++ [emit direct (Msg.Sessions listing (detach s now).1.session)])
  else
    (s, [emit direct (Msg.Sessions listing s.session)])

/-- `_attach(session_name)`. External inputs: `listing₁` is the
`_list_sessions()` result checked at entry, `captured` the
`_capture_pane()` snapshot, `listing₂` the `_list_sessions()` result
seen by the trailing `_send_sessions()`. On a falsy or unlisted name:
broadcast `Session not found` and stop. Otherwise: `_detach`, set the
session, the running flag and the last-change time, seed
`last_content`/`last_emitted` with the snapshot, broadcast the sanitized
snapshot when non-empty, stamp the last-emit time, start the capture
task, then `_send_sessions()` and `_send_status()`. -/
def attach (s : RelayState) (session_name : String) (listing₁ : List String)
    (captured : String) (listing₂ : List String) (now : Int) : RelayState × List Effect :=
  if session_name = "" ∨ session_name ∉ listing₁ then
    (s, [Effect.broadcast (Msg.Output ("Session not found: " ++ session_name))])
  else
    let s1 := detach_state s
    let s2 : RelayState :=
      { s1 with
        session := some session_name, running := true,
        last_change_time := now, last_content := captured, last_emitted := captured }
    let snapshotEffs :=
      if captured ≠ "" then
        [Effect.broadcast (Msg.Output (rstripNewline (strip_ansi captured)))]
      else []
    let s3 : RelayState := { s2 with last_emit_time := now, captureTask := true }
    let after := send_sessions s3 listing₂ now false
    (after.1,
     (detach s now).2 ++ snapshotEffs ++ after.2 ++ send_status after.1 now false)

/-- `_create_session(name, command)`. `name or "main"`, `command or
"bash"`; if the name is already listed (`listing₀`), broadcast
`already exists` and stop. Otherwise run `tmux new-session`; on success
(`createOk`) broadcast the confirmation and `_attach` (with the attach
call's own inputs `listingA`, `captured`, `listingB`); on failure
broadcast `Failed to create session`. Always `_send_sessions()`
(input `listingC`) afterwards. -/
def create_session (s : RelayState) (name command : String) (listing₀ : List String)
    (createOk : Bool) (errMsg captured : String)
    (listingA listingB listingC : List String) (now : Int) : RelayState × List Effect :=
  let name' := if name = "" then "main" else name
  let cmd := if command = "" then "bash" else command
  if name' ∈ listing₀ then
    (s, [Effect.broadcast (Msg.Output ("Session already exists: " ++ name'))])
  else
    let mid : RelayState × List Effect :=
      if createOk then
        ((attach s name' listingA captured listingB now).1,
         Effect.broadcast (Msg.Output ("Created session: " ++ name')) ::
           (attach s name' listingA captured listingB now).2)
      else
        (s, [Effect.broadcast (Msg.Output ("Failed to create session: " ++ errMsg))])
    ((send_sessions mid.1 listingC now false).1,
     Effect.tmuxNewSession name' cmd :: (mid.2 ++ (send_sessions mid.1 listingC now false).2))

/-- `_kill_session(name)`: falsy name is a complete no-op; if the name is
the current session, `_detach` first; run `tmux kill-session` whose
outcome (`killOk`) is swallowed by the bare `except`; always
`_send_sessions()` afterwards. -/
def kill_session (s : RelayState) (name : String) (killOk : Bool)
    (listing : List String) (now : Int) : RelayState × List Effect :=
  if name = "" then (s, [])
  else
    let mid : RelayState × List Effect :=
      if s.session = some name then detach s now else (s, [])
    ((send_sessions mid.1 listing now false).1,
     mid.2 ++ [Effect.tmuxKillSession name] ++ (send_sessions mid.1 listing now false).2)

/-- `_refresh_output`: nothing without a truthy session; otherwise
capture, broadcast the sanitized text when it is not whitespace-only,
and unconditionally update `last_emitted` and `last_emit_time`. -/
def refresh_output (s : RelayState) (captured : String) (now : Int) :
    RelayState × List Effect :=
  if ¬ truthyOpt s.session then (s, [])
  else
    ({ s with last_emitted := captured, last_emit_time := now },
     if pyStrip captured ≠ "" then
       [Effect.broadcast (Msg.Output (rstripNewline (strip_ansi captured)))]
     else [])

/-- `_send_input(text, key)`: without a truthy session, broadcast the
`No active session` error. If the attached session is absent from the
listing: broadcast the `no longer exists` error, `_detach`, and
`_send_sessions()`. Otherwise send the named key, or the literal text
followed (after a 50 ms sleep; if the text send raised, the `Enter` is
skipped — `textOk`) by an `Enter` key. -/
def send_input (s : RelayState) (text : String) (key : Option String)
    (listing : List String) (textOk : Bool) (now : Int) : RelayState × List Effect :=
  if ¬ truthyOpt s.session then
    (s, [Effect.broadcast (Msg.Output "[Error] No active session")])
  else if s.session.getD "" ∉ listing then
    ((send_sessions (detach s now).1 listing now false).1,
     Effect.broadcast
         (Msg.Output ("[Error] Session '" ++ s.session.getD "" ++ "' no longer exists")) ::
       ((detach s now).2 ++ (send_sessions (detach s now).1 listing now false).2))
  else if truthyOpt key then
    (s, [Effect.tmuxSendKey (s.session.getD "") (key.getD "")])
  else
    (s, Effect.tmuxSendText (s.session.getD "") text ::
      (if textOk then [Effect.tmuxSendKey (s.session.getD "") "Enter"] else []))

/-- Lines 312-320 of `_capture_loop`: sanitize the capture; if the
sanitized text changed, stamp the change time and store the sanitized
text; store the raw capture. -/
def tick_observe (s : RelayState) (captured : String) (now : Int) : RelayState :=
  let clean := rstripNewline (strip_ansi captured)
  let s1 := if clean ≠ s.last_clean
            then { s with last_change_time := now, last_clean := clean } else s
  { s1 with last_content := captured }

/-- The `should_emit` condition of `_capture_loop`, on the state after
`tick_observe`: debounce elapsed and raw text differs from the last
emitted raw text, or max-silence elapsed and it differs. -/
def tickShouldEmit (s2 : RelayState) (captured : String) (now : Int) : Prop :=
  (now - s2.last_change_time ≥ debounce_time ∧ captured ≠ s2.last_emitted) ∨
  (now - s2.last_emit_time ≥ max_silence ∧ captured ≠ s2.last_emitted)

instance (s2 : RelayState) (captured : String) (now : Int) :
    Decidable (tickShouldEmit s2 captured now) := by
  unfold tickShouldEmit
  infer_instance

/-- The state updates of the `should_emit` branch: `last_emitted` and
`last_emit_time` advance whether or not anything was broadcast. -/
def tick_emit_state (s2 : RelayState) (captured : String) (now : Int) : RelayState :=
  if tickShouldEmit s2 captured now then
    { s2 with last_emitted := captured, last_emit_time := now }
  else s2

/-- The broadcasts of the `should_emit` branch: when the raw capture is
not whitespace-only, the sanitized content followed by a status update;
a whitespace-only capture broadcasts nothing. -/
def tick_emit_effects (s2 : RelayState) (captured : String) (now : Int) : List Effect :=
  if tickShouldEmit s2 captured now then
    (if pyStrip captured ≠ "" then
       Effect.broadcast (Msg.Output (rstripNewline (strip_ansi captured))) ::
         send_status s2 now false
     else [])
  else []

/-- One iteration of the `while` body of `_capture_loop` (the loop runs
only while `self._running and self._session` is truthy): observe the
capture, apply the emit rule, then the busy-edge check, which broadcasts
a status update exactly when the lagged busy flag and the current busy
flag disagree. -/
def capture_tick (s : RelayState) (captured : String) (now : Int) :
    RelayState × List Effect :=
  let s2 := tick_observe s captured now
  let s3 := tick_emit_state s2 captured now
  let was_busy : Bool := decide (now - s2.last_change_time - busy_lag < debounce_time)
  let is_busy : Bool := decide (now - s2.last_change_time < debounce_time)
  (s3, tick_emit_effects s2 captured now ++
    (if was_busy ≠ is_busy then send_status s3 now false else []))

/-- One engine operation together with the external inputs it consumes,
for reachability statements: the operations named by the data-model
invariant (attach, detach, create, kill, send, capture-loop ticks). -/
inductive Op where
  | attachOp (name : String) (listing₁ : List String) (captured : String)
      (listing₂ : List String) (now : Int)
  | detachOp (now : Int)
  | createOp (name command : String) (listing₀ : List String) (createOk : Bool)
      (errMsg captured : String) (listingA listingB listingC : List String) (now : Int)
  | killOp (name : String) (killOk : Bool) (listing : List String) (now : Int)
  | sendOp (text : String) (key : Option String) (listing : List String)
      (textOk : Bool) (now : Int)
  | tickOp (captured : String) (now : Int)

/-- The state transition of one operation. A tick only runs while the
loop guard `self._running and self._session` holds (otherwise the
capture-loop task has exited or been cancelled). -/
def step (s : RelayState) : Op → RelayState
  | Op.attachOp n l₁ c l₂ t => (attach s n l₁ c l₂ t).1
  | Op.detachOp t => (detach s t).1
  | Op.createOp n cm l₀ ok e c la lb lc t => (create_session s n cm l₀ ok e c la lb lc t).1
  | Op.killOp n ok l t => (kill_session s n ok l t).1
  | Op.sendOp x k l ok t => (send_input s x k l ok t).1
  | Op.tickOp c t => if s.running ∧ truthyOpt s.session then (capture_tick s c t).1 else s

/-- Run a sequence of operations from the freshly constructed server. -/
def runOps (ops : List Op) : RelayState := ops.foldl step initState

/-- The data-model invariant: `running = true` implies a non-empty
(non-null) session identifier. -/
def attachedInv (s : RelayState) : Bool := !s.running || truthyOpt s.session

/-- Modelled from the spec's words (the emit rule of §4.2), for
comparison with `_capture_loop`: `time_since_change` is zero when this
tick's sanitized text differs from the stored sanitized text (the change
was just recorded), and is measured from the stored change time
otherwise. -/
def specTimeSinceChange (s : RelayState) (captured : String) (now : Int) : Int :=
  if rstripNewline (strip_ansi captured) ≠ s.last_clean then 0
  else now - s.last_change_time

/-- Modelled from the spec's words (the emit rule of §4.2): emit when
the debounce interval has passed since the last change and the raw text
differs from the last-emitted raw text, or the max-silence interval has
passed since the last emission and the raw text differs. -/
def specEmitCond (s : RelayState) (captured : String) (now : Int) : Prop :=
  (specTimeSinceChange s captured now ≥ debounce_time ∧ captured ≠ s.last_emitted) ∨
  (now - s.last_emit_time ≥ max_silence ∧ captured ≠ s.last_emitted)

instance (s : RelayState) (captured : String) (now : Int) :
    Decidable (specEmitCond s captured now) := by
  unfold specEmitCond
  infer_instance

/-- A sample attached state, used to instantiate theorems: attached to
session `work`, with a capture already seen and emitted at time 0. -/
def sampleAttached : RelayState :=
  { session := some "work", running := true, captureTask := true,
    last_content := "hello\n", last_clean := "hello", last_emitted := "hello\n",
    last_change_time := 0, last_emit_time := 0 }

/-! ### Helper lemmas -/

theorem strList_map : ∀ l : List String, strList (l.map JVal.str) = Except.ok l
  | [] => rfl
  | s :: rest => by simp [strList, strList_map rest, Except.map]

theorem detach_effects (s : RelayState) (now : Int) :
    (detach s now).2 = [Effect.broadcast (Msg.Status true none false)] := by
  simp [detach, detach_state, send_status, emit, statusMsg, truthyOpt]

theorem send_status_no_output (s : RelayState) (now : Int) (d : Bool) (c : String) :
    Effect.broadcast (Msg.Output c) ∉ send_status s now d := by
  cases d <;> simp [send_status, emit, statusMsg]

theorem tick_observe_proj (s : RelayState) (c : String) (t : Int) :
    (tick_observe s c t).session = s.session ∧
    (tick_observe s c t).running = s.running ∧
    (tick_observe s c t).captureTask = s.captureTask ∧
    (tick_observe s c t).last_emitted = s.last_emitted ∧
    (tick_observe s c t).last_emit_time = s.last_emit_time := by
  simp only [tick_observe]
  split <;> simp

theorem tick_emit_state_proj (s2 : RelayState) (c : String) (t : Int) :
    (tick_emit_state s2 c t).session = s2.session ∧
    (tick_emit_state s2 c t).running = s2.running ∧
    (tick_emit_state s2 c t).captureTask = s2.captureTask := by
  unfold tick_emit_state
  split <;> simp

theorem capture_tick_state (s : RelayState) (c : String) (t : Int) :
    (capture_tick s c t).1 = tick_emit_state (tick_observe s c t) c t := rfl

theorem capture_tick_proj (s : RelayState) (c : String) (t : Int) :
    (capture_tick s c t).1.session = s.session ∧
    (capture_tick s c t).1.running = s.running ∧
    (capture_tick s c t).1.captureTask = s.captureTask := by
  rw [capture_tick_state]
  have h1 := tick_emit_state_proj (tick_observe s c t) c t
  have h2 := tick_observe_proj s c t
  exact ⟨h1.1.trans h2.1, h1.2.1.trans h2.2.1, h1.2.2.trans h2.2.2.1⟩

theorem attachedInv_detach (s : RelayState) (now : Int) :
    attachedInv (detach s now).1 = true := rfl

theorem attachedInv_send_sessions (s : RelayState) (listing : List String) (now : Int)
    (d : Bool) (h : attachedInv s = true) :
    attachedInv (send_sessions s listing now d).1 = true := by
  unfold send_sessions
  split
  · exact attachedInv_detach s now
  · exact h

theorem attachedInv_attach (s : RelayState) (n : String) (l₁ : List String)
    (c : String) (l₂ : List String) (now : Int) (h : attachedInv s = true) :
    attachedInv (attach s n l₁ c l₂ now).1 = true := by
  unfold attach
  split
  · exact h
  · next hcond =>
    dsimp only
    apply attachedInv_send_sessions
    push_neg at hcond
    simp [attachedInv, truthyOpt, detach_state, hcond.1]

theorem attachedInv_create (s : RelayState) (n cm : String) (l₀ : List String)
    (ok : Bool) (e c : String) (la lb lc : List String) (t : Int)
    (h : attachedInv s = true) :
    attachedInv (create_session s n cm l₀ ok e c la lb lc t).1 = true := by
  unfold create_session
  dsimp only
  generalize (if n = "" then "main" else n) = nm
  split
  · exact h
  · apply attachedInv_send_sessions
    split
    · exact attachedInv_attach s nm la c lb t h
    · exact h

theorem attachedInv_kill (s : RelayState) (n : String) (ok : Bool)
    (l : List String) (t : Int) (h : attachedInv s = true) :
    attachedInv (kill_session s n ok l t).1 = true := by
  unfold kill_session
  split
  · exact h
  · dsimp only
    apply attachedInv_send_sessions
    split
    · exact attachedInv_detach s t
    · exact h

theorem attachedInv_send_input (s : RelayState) (x : String) (k : Option String)
    (l : List String) (ok : Bool) (t : Int) (h : attachedInv s = true) :
    attachedInv (send_input s x k l ok t).1 = true := by
  unfold send_input
  split
  · exact h
  · split
    · exact attachedInv_send_sessions _ l t false (attachedInv_detach s t)
    · split
      · exact h
      · exact h

theorem attachedInv_step (s : RelayState) (op : Op) (h : attachedInv s = true) :
    attachedInv (step s op) = true := by
  cases op with
  | attachOp n l₁ c l₂ t => exact attachedInv_attach s n l₁ c l₂ t h
  | detachOp t => exact attachedInv_detach s t
  | createOp n cm l₀ ok e c la lb lc t => exact attachedInv_create s n cm l₀ ok e c la lb lc t h
  | killOp n ok l t => exact attachedInv_kill s n ok l t h
  | sendOp x k l ok t => exact attachedInv_send_input s x k l ok t h
  | tickOp c t =>
    simp only [step]
    split
    · have hp := capture_tick_proj s c t
      unfold attachedInv at h ⊢
      rw [hp.1, hp.2.1]
      exact h
    · exact h

theorem attachedInv_foldl (ops : List Op) : ∀ s : RelayState, attachedInv s = true →
    attachedInv (ops.foldl step s) = true := by
  induction ops with
  | nil => intro s h; exact h
  | cons op rest ih => intro s h; exact ih _ (attachedInv_step s op h)

theorem send_sessions_listed (s : RelayState) (listing : List String) (now : Int)
    (d : Bool) (h : ¬(truthyOpt s.session = true ∧ s.session.getD "" ∉ listing)) :
    send_sessions s listing now d = (s, [emit d (Msg.Sessions listing s.session)]) := by
  unfold send_sessions
  rw [if_neg h]

theorem send_sessions_no_output (s : RelayState) (listing : List String) (now : Int)
    (d : Bool) (m : String) :
    Effect.broadcast (Msg.Output m) ∉ (send_sessions s listing now d).2 := by
  unfold send_sessions
  split <;> cases d <;> simp [detach_effects, emit]

theorem send_sessions_ends (s : RelayState) (listing : List String) (now : Int) :
    ∃ pre, (send_sessions s listing now false).2 =
      pre ++ [Effect.broadcast
        (Msg.Sessions listing (send_sessions s listing now false).1.session)] := by
  unfold send_sessions
  split
  · exact ⟨(detach s now).2, by simp [emit]⟩
  · exact ⟨[], by simp [emit]⟩

theorem attach_success (s : RelayState) (n : String) (l₁ : List String) (c : String)
    (l₂ : List String) (t : Int) (hn : n ≠ "") (h1 : n ∈ l₁) (h2 : n ∈ l₂) :
    (attach s n l₁ c l₂ t).1.session = some n ∧
    (attach s n l₁ c l₂ t).1.running = true ∧
    (attach s n l₁ c l₂ t).1.captureTask = true ∧
    ∃ rest, (attach s n l₁ c l₂ t).2 =
      Effect.broadcast (Msg.Status true none false) :: rest := by
  unfold attach
  rw [if_neg (by push_neg; exact ⟨hn, h1⟩)]
  dsimp only
  rw [send_sessions_listed _ _ _ _ (by simp [truthyOpt, hn, h2])]
  refine ⟨rfl, rfl, rfl, ?_⟩
  rw [detach_effects]
  exact ⟨_, rfl⟩

theorem output_not_mem_status_ite (p : Prop) [inst : Decidable p] (s3 : RelayState)
    (now : Int) (c : String) :
    Effect.broadcast (Msg.Output c) ∉ (if p then send_status s3 now false else []) := by
  split
  · exact send_status_no_output s3 now false c
  · simp

theorem spec_emit_iff (s : RelayState) (captured : String) (now : Int) :
    specEmitCond s captured now ↔
      tickShouldEmit (tick_observe s captured now) captured now := by
  unfold specEmitCond specTimeSinceChange tickShouldEmit tick_observe
  by_cases h : rstripNewline (strip_ansi captured) ≠ s.last_clean
  · simp [h]
  · simp [h]

/-! ### Claim theorems -/

/-- C4: every detach clears the three cached text fields together, never
partially, clears the session and the running flag, and its own status
broadcast — as well as any status broadcast issued later from the
detached state — reports `session = null` and `is_busy = false`. -/
theorem C4_detach_clears (s : RelayState) (now now' : Int) :
    (detach s now).1.last_content = "" ∧
    (detach s now).1.last_clean = "" ∧
    (detach s now).1.last_emitted = "" ∧
    (detach s now).1.session = none ∧
    (detach s now).1.running = false ∧
    (detach s now).2 = [Effect.broadcast (Msg.Status true none false)] ∧
    send_status (detach s now).1 now' false =
      [Effect.broadcast (Msg.Status true none false)] := by
  simp [detach, detach_state, send_status, emit, statusMsg, truthyOpt]

/-- C6: an attach whose name is falsy or not in the Session Store listing
changes no state and broadcasts exactly one informational output naming
the missing session. -/
theorem C6_attach_missing (s : RelayState) (session_name : String)
    (listing₁ listing₂ : List String) (captured : String) (now : Int)
    (h : session_name = "" ∨ session_name ∉ listing₁) :
    attach s session_name listing₁ captured listing₂ now =
      (s, [Effect.broadcast (Msg.Output ("Session not found: " ++ session_name))]) := by
  unfold attach
  rw [if_pos h]

/-- C6 witness: attaching to `ghost` on an empty listing is a no-op with
one informational output. -/
theorem C6_attach_missing_witness :
    attach initState "ghost" [] "" [] 0 =
      (initState, [Effect.broadcast (Msg.Output "Session not found: ghost")]) :=
  C6_attach_missing initState "ghost" [] [] "" 0 (Or.inr (by decide))

/-- C9: in every state reachable from the initial state by any sequence
of engine operations, `running = true` implies a non-empty (non-null)
session identifier. -/
theorem C9_running_invariant (ops : List Op) : attachedInv (runOps ops) = true :=
  attachedInv_foldl ops initState rfl

/-- C10: decoding the encoding of each of the six wire-message variants
is the identity. -/
theorem C10_roundtrip (m : Msg) : from_json (to_json m) = Except.ok m := by
  cases m with
  | Output content => rfl
  | Status connected session is_busy => cases session <;> rfl
  | Sessions sessions active =>
      cases active <;>
        (simp [from_json, to_json, jGet, keysOk, getStrListD, getOptStr, optStrJson,
               strList_map]; rfl)
  | Pong => rfl
  | Input content key => cases key <;> rfl
  | Command action session command => cases session <;> cases command <;> rfl

/-- C1: on a capture-loop tick while attached, an output broadcast of the
sanitized content (trailing newlines trimmed) occurs exactly when the
emit rule fires — (a) debounce elapsed since the (just-updated) last
change and the raw capture differs from the last-emitted raw text, or
(b) max-silence elapsed since the last emission and the raw capture
differs — and the raw capture is not whitespace-only; when the rule
fires on whitespace-only content nothing is broadcast but `last_emitted`
and `last_emit_time` still advance. -/
theorem C1_emit_rule (s : RelayState) (captured : String) (now : Int)
    (hrun : s.running = true) (hsess : truthyOpt s.session = true) :
    ((∃ c, Effect.broadcast (Msg.Output c) ∈ (capture_tick s captured now).2) ↔
      (specEmitCond s captured now ∧ pyStrip captured ≠ "")) ∧
    (specEmitCond s captured now → pyStrip captured ≠ "" →
      Effect.broadcast (Msg.Output (rstripNewline (strip_ansi captured))) ∈
        (capture_tick s captured now).2) ∧
    (specEmitCond s captured now → pyStrip captured = "" →
      (capture_tick s captured now).1.last_emitted = captured ∧
      (capture_tick s captured now).1.last_emit_time = now) := by
  have hiff := spec_emit_iff s captured now
  unfold capture_tick
  dsimp only
  by_cases hse : tickShouldEmit (tick_observe s captured now) captured now
  · by_cases hws : pyStrip captured = ""
    · refine ⟨?_, ?_, ?_⟩
      · constructor
        · rintro ⟨c, hc⟩
          simp only [tick_emit_effects, if_pos hse, hws, ne_eq, not_true_eq_false,
            if_false, List.nil_append] at hc
          exact absurd hc (output_not_mem_status_ite _ _ _ _)
        · rintro ⟨_, hne⟩
          exact absurd hws hne
      · intro _ hne
        exact absurd hws hne
      · intro _ _
        simp [tick_emit_state, hse]
    · refine ⟨?_, ?_, ?_⟩
      · constructor
        · intro _
          exact ⟨hiff.mpr hse, hws⟩
        · intro _
          refine ⟨rstripNewline (strip_ansi captured), ?_⟩
          simp [tick_emit_effects, hse, hws]
      · intro _ _
        simp [tick_emit_effects, hse, hws]
      · intro _ hws'
        exact absurd hws' hws
  · refine ⟨?_, ?_, ?_⟩
    · constructor
      · rintro ⟨c, hc⟩
        simp only [tick_emit_effects, if_neg hse, List.nil_append] at hc
        exact absurd hc (output_not_mem_status_ite _ _ _ _)
      · rintro ⟨hspec, _⟩
        exact absurd (hiff.mp hspec) hse
    · intro hspec _
      exact absurd (hiff.mp hspec) hse
    · intro hspec _
      exact absurd (hiff.mp hspec) hse

/-- C1 witness: in the sample attached state, a capture at 6 s whose raw
text differs from the last-emitted text satisfies the emit rule (via the
max-silence arm), is not whitespace-only, and the tick broadcasts the
sanitized content. -/
theorem C1_emit_rule_witness :
    specEmitCond sampleAttached "hello\nworld\n" 6000 ∧
    pyStrip "hello\nworld\n" ≠ "" ∧
    Effect.broadcast (Msg.Output "hello\nworld") ∈
      (capture_tick sampleAttached "hello\nworld\n" 6000).2 :=
  ⟨by decide, by decide,
   (C1_emit_rule sampleAttached "hello\nworld\n" 6000 rfl rfl).2.1 (by decide) (by decide)⟩

/-- C2 counterexample: the capture loop does not observe session loss.
When the attached session disappears from the Session Store,
`_capture_pane` fails and returns `""`; the loop body run on that
capture leaves the engine attached and running (here it does not even
broadcast anything), so no transition to Detached happens. -/
theorem C2_capture_loop_counterexample :
    (capture_tick sampleAttached "" 6000).1.running = true ∧
    (capture_tick sampleAttached "" 6000).1.session = some "work" ∧
    (capture_tick sampleAttached "" 6000).1.captureTask = true ∧
    (capture_tick sampleAttached "" 6000).2 = [] := by decide

/-- C2 amended: the transition to Detached on session loss is performed
by the session-list refresh (`_send_sessions`, which runs on client
commands and client connects), not by the capture loop: when the current
session is not in the listing, the refresh detaches (running flag
cleared, session cleared, status broadcast before the sessions
broadcast), while a capture-loop tick never changes the running flag or
the session. -/
theorem C2_session_loss (s : RelayState) (nm : String) (listing : List String) (now : Int)
    (h1 : s.session = some nm) (h2 : nm ≠ "") (h3 : nm ∉ listing) :
    (send_sessions s listing now false).1 = detach_state s ∧
    (send_sessions s listing now false).1.running = false ∧
    (send_sessions s listing now false).1.session = none ∧
    (send_sessions s listing now false).2 =
      [Effect.broadcast (Msg.Status true none false),
       Effect.broadcast (Msg.Sessions listing none)] ∧
    (∀ captured t, (capture_tick s captured t).1.running = s.running ∧
      (capture_tick s captured t).1.session = s.session) := by
  have hc : truthyOpt s.session = true ∧ s.session.getD "" ∉ listing := by
    rw [h1]
    exact ⟨by simp [truthyOpt, h2], by simpa using h3⟩
  unfold send_sessions
  rw [if_pos hc]
  refine ⟨rfl, rfl, rfl, ?_, ?_⟩
  · rw [detach_effects]
    simp [detach, detach_state, emit]
  · intro captured t
    have hp := capture_tick_proj s captured t
    exact ⟨hp.2.1, hp.1⟩

/-- C2 amended witness: with the attached session gone from the listing,
one session-list refresh detaches and broadcasts status then sessions. -/
theorem C2_session_loss_witness :
    (send_sessions sampleAttached ["other"] 1000 false).1.session = none ∧
    (send_sessions sampleAttached ["other"] 1000 false).2 =
      [Effect.broadcast (Msg.Status true none false),
       Effect.broadcast (Msg.Sessions ["other"] none)] := by
  have h := C2_session_loss sampleAttached "work" ["other"] 1000 rfl (by decide) (by decide)
  exact ⟨h.2.2.1, h.2.2.2.1⟩

/-- C3: after `attach(A)` then `attach(B)` (distinct names, each listed
by the Session Store at the relevant calls), the first attach ends on
session A, and the second performs a full detach first (its effect trace
begins with the detached status broadcast) and ends attached to B with
the running flag set and exactly the one (freshly started) capture task,
whose captures are scoped to the state's session, i.e. B. -/
theorem C3_reattach (s : RelayState) (A B cA cB : String)
    (l₁ l₂ m₁ m₂ : List String) (t₁ t₂ : Int)
    (hAB : A ≠ B) (hA : A ≠ "") (hA1 : A ∈ l₁) (hA2 : A ∈ l₂)
    (hB : B ≠ "") (hB1 : B ∈ m₁) (hB2 : B ∈ m₂) :
    (attach s A l₁ cA l₂ t₁).1.session = some A ∧
    (attach (attach s A l₁ cA l₂ t₁).1 B m₁ cB m₂ t₂).1.session = some B ∧
    (attach (attach s A l₁ cA l₂ t₁).1 B m₁ cB m₂ t₂).1.running = true ∧
    (attach (attach s A l₁ cA l₂ t₁).1 B m₁ cB m₂ t₂).1.captureTask = true ∧
    ∃ rest, (attach (attach s A l₁ cA l₂ t₁).1 B m₁ cB m₂ t₂).2 =
      Effect.broadcast (Msg.Status true none false) :: rest := by
  have h1 := attach_success s A l₁ cA l₂ t₁ hA hA1 hA2
  have h2 := attach_success (attach s A l₁ cA l₂ t₁).1 B m₁ cB m₂ t₂ hB hB1 hB2
  exact ⟨h1.1, h2.1, h2.2.1, h2.2.2.1, h2.2.2.2⟩

/-- C3 witness: attach `alpha` then `beta` from the initial state; the
final state is attached to `beta` with the capture task flag set. -/
theorem C3_reattach_witness :
    (attach (attach initState "alpha" ["alpha"] "" ["alpha"] 0).1
        "beta" ["beta"] "" ["beta"] 100).1.session = some "beta" ∧
    (attach (attach initState "alpha" ["alpha"] "" ["alpha"] 0).1
        "beta" ["beta"] "" ["beta"] 100).1.captureTask = true := by
  have h := C3_reattach initState "alpha" "beta" "" "" ["alpha"] ["alpha"] ["beta"] ["beta"]
    0 100 (by decide) (by decide) (by decide) (by decide) (by decide) (by decide) (by decide)
  exact ⟨h.2.1, h.2.2.2.1⟩

/-- C5: kill with an empty name is a complete no-op (no state change, no
effects); the outcome of the backend deletion is swallowed (the result
does not depend on it, and no output message is ever produced); killing
the currently attached session completes a full detach — state cleared,
detached status broadcast — before the `tmux kill-session` request, and
for every non-empty name the effect trace ends with a broadcast of the
refreshed session list, regardless of the deletion outcome. -/
theorem C5_kill (s : RelayState) (name : String) (ok ok' : Bool)
    (listing : List String) (now : Int) :
    (name = "" → kill_session s name ok listing now = (s, [])) ∧
    kill_session s name ok listing now = kill_session s name ok' listing now ∧
    (name ≠ "" → s.session = some name →
      kill_session s name ok listing now =
        (detach_state s,
         [Effect.broadcast (Msg.Status true none false),
          Effect.tmuxKillSession name,
          Effect.broadcast (Msg.Sessions listing none)])) ∧
    (name ≠ "" →
      ∃ pre, (kill_session s name ok listing now).2 =
        pre ++ [Effect.broadcast
          (Msg.Sessions listing (kill_session s name ok listing now).1.session)]) ∧
    ∀ m, Effect.broadcast (Msg.Output m) ∉ (kill_session s name ok listing now).2 := by
  refine ⟨?_, rfl, ?_, ?_, ?_⟩
  · intro h
    unfold kill_session
    rw [if_pos h]
  · intro hname hsess
    unfold kill_session
    rw [if_neg hname]
    dsimp only
    rw [if_pos hsess,
      send_sessions_listed _ _ _ _ (by simp [detach, detach_state, truthyOpt])]
    simp [detach, detach_state, send_status, emit, statusMsg, truthyOpt]
  · intro hname
    unfold kill_session
    rw [if_neg hname]
    dsimp only
    obtain ⟨pre, hp⟩ :=
      send_sessions_ends (if s.session = some name then detach s now else (s, [])).1 listing now
    refine ⟨(if s.session = some name then detach s now else (s, [])).2 ++
      [Effect.tmuxKillSession name] ++ pre, ?_⟩
    rw [hp]
    simp
  · intro m
    unfold kill_session
    split
    · simp
    · dsimp only
      simp only [List.mem_append, List.mem_singleton]
      push_neg
      refine ⟨⟨?_, by simp⟩, ?_⟩
      · split
        · simp [detach_effects]
        · simp
      · exact send_sessions_no_output _ listing now false m

/-- C5 witness: killing the currently attached session `work` fully
detaches before the backend request and ends with the refreshed session
list. -/
theorem C5_kill_witness :
    kill_session sampleAttached "work" true ["other"] 1000 =
      (detach_state sampleAttached,
       [Effect.broadcast (Msg.Status true none false),
        Effect.tmuxKillSession "work",
        Effect.broadcast (Msg.Sessions ["other"] none)]) :=
  (C5_kill sampleAttached "work" true false ["other"] 1000).2.2.1 (by decide) rfl

theorem send_input_missing (s : RelayState) (text : String) (key : Option String)
    (nm : String) (listing : List String) (tOk : Bool) (now : Int)
    (hsess : s.session = some nm) (hnm : nm ≠ "") (hnl : nm ∉ listing) :
    send_input s text key listing tOk now =
      (detach_state s,
       [Effect.broadcast (Msg.Output ("[Error] Session '" ++ nm ++ "' no longer exists")),
        Effect.broadcast (Msg.Status true none false),
        Effect.broadcast (Msg.Sessions listing none)]) := by
  unfold send_input
  rw [if_neg (by simp [hsess, truthyOpt, hnm]), if_pos (by simp [hsess, hnl]),
    send_sessions_listed _ _ _ _ (by simp [detach, detach_state, truthyOpt])]
  simp [detach, detach_state, send_status, emit, statusMsg, truthyOpt, hsess]

/-- C7: a send while nothing is attached broadcasts the error output and
changes nothing else; a send while the attached session is absent from
the listing broadcasts the error output naming the session, performs a
full detach, and broadcasts the refreshed session list, with zero
backend `send-keys` calls issued. -/
theorem C7_send_input (s : RelayState) (text : String) (key : Option String)
    (nm : String) (listing : List String) (tOk : Bool) (now : Int) :
    (truthyOpt s.session = false →
      send_input s text key listing tOk now =
        (s, [Effect.broadcast (Msg.Output "[Error] No active session")])) ∧
    (s.session = some nm → nm ≠ "" → nm ∉ listing →
      send_input s text key listing tOk now =
        (detach_state s,
         [Effect.broadcast (Msg.Output ("[Error] Session '" ++ nm ++ "' no longer exists")),
          Effect.broadcast (Msg.Status true none false),
          Effect.broadcast (Msg.Sessions listing none)])) ∧
    (s.session = some nm → nm ≠ "" → nm ∉ listing →
      ∀ tgt arg, Effect.tmuxSendText tgt arg ∉ (send_input s text key listing tOk now).2 ∧
        Effect.tmuxSendKey tgt arg ∉ (send_input s text key listing tOk now).2) := by
  refine ⟨?_, ?_, ?_⟩
  · intro h
    unfold send_input
    rw [if_pos (by simp [h])]
  · intro hsess hnm hnl
    exact send_input_missing s text key nm listing tOk now hsess hnm hnl
  · intro hsess hnm hnl tgt arg
    rw [send_input_missing s text key nm listing tOk now hsess hnm hnl]
    simp

/-- C7 witness: sending `ls` while the attached session `work` is gone
from the listing detaches and broadcasts the error, status and sessions
messages, with no tmux send effects. -/
theorem C7_send_input_witness :
    send_input sampleAttached "ls" none ["other"] true 500 =
      (detach_state sampleAttached,
       [Effect.broadcast (Msg.Output "[Error] Session 'work' no longer exists"),
        Effect.broadcast (Msg.Status true none false),
        Effect.broadcast (Msg.Sessions ["other"] none)]) :=
  (C7_send_input sampleAttached "ls" none "work" ["other"] true 500).2.1
    rfl (by decide) (by decide)

/-- C8 counterexample: in the create-on-empty-backend scenario the claimed
status message `connected:true, session:"work", is_busy:false` is never
broadcast: `_attach` stamps `last_change_time` with the current time just
before `_send_status`, so the status it broadcasts carries
`is_busy = true`. (Inputs: empty initial listing, the new session listed
afterwards, snapshot `"$ "`, creation succeeding, all at time 0.) -/
theorem C8_create_counterexample :
    Effect.broadcast (Msg.Status true (some "work") false) ∉
      (create_session initState "work" "bash" [] true "" "$ " ["work"] ["work"] ["work"] 0).2 := by
  decide

/-- C8 amended: on an empty backend, `create("work", "bash")` creates the
session, attaches to it, and broadcasts: one output confirming creation,
one output with the (non-empty) initial snapshot, the sessions message
`sessions:["work"], active:"work"` (twice: once inside attach, once at
the end of create), and a status message `connected:true,
session:"work", is_busy:true` — preceded by the implicit detach's
`session:null` status. (A snapshot output is emitted only when the raw
snapshot is non-empty; here it is `"$ "`.) -/
theorem C8_create_scenario :
    create_session initState "work" "bash" [] true "" "$ " ["work"] ["work"] ["work"] 0 =
      ({ session := some "work", running := true, captureTask := true,
         last_content := "$ ", last_clean := "", last_emitted := "$ ",
         last_change_time := 0, last_emit_time := 0 },
       [Effect.tmuxNewSession "work" "bash",
        Effect.broadcast (Msg.Output "Created session: work"),
        Effect.broadcast (Msg.Status true none false),
        Effect.broadcast (Msg.Output "$ "),
        Effect.broadcast (Msg.Sessions ["work"] (some "work")),
        Effect.broadcast (Msg.Status true (some "work") true),
        Effect.broadcast (Msg.Sessions ["work"] (some "work"))]) := by
  decide

end Relay
